import Mathlib

/-!
Verification of `homework.py`, a single-file polling Telegram bot.

The Python program is shallowly embedded: Python values that flow through the
program (JSON payloads, homework records, `None`) are modelled by the
inductive type `PyVal`; functions that can raise return `Except Err _`;
the effectful parts (the HTTP client `requests.get`, the Telegram client
`bot.send_message`, `time.time`, `time.sleep`) are modelled by an explicit
environment `Env` together with an event trace (`Event`) recording the
observable actions an iteration of the poll loop performs.

Correspondence between the spec's error vocabulary and the Python code:
`TransportError` is the generic `Exception` raised at the `requests.get`
call site, `EndpointUnavailableError` is the custom exception of the same
name, `ShapeError` is the `TypeError` raised by `check_response`, and
`UnexpectedDataError` is the `KeyError` raised by `parse_status`.
-/

namespace HomeworkBot

/-- Python runtime values as they occur in this program: `None`, booleans,
integers, strings, lists and (string-keyed) dicts. -/
inductive PyVal where
  | none : PyVal
  | bool : Bool → PyVal
  | int : Int → PyVal
  | str : String → PyVal
  | list : List PyVal → PyVal
  | dict : List (String × PyVal) → PyVal

/-- A single quote character, used by `pyRepr` for string values. -/
def squote : String := String.singleton (Char.ofNat 39)

mutual

/-- Python `repr` of a value (as far as this program can observe it). -/
def pyRepr : PyVal → String
  | PyVal.none => "None"
  | PyVal.bool true => "True"
  | PyVal.bool false => "False"
  | PyVal.int n => toString n
  | PyVal.str s => squote ++ s ++ squote
  | PyVal.list xs => "[" ++ pyReprItems xs ++ "]"
  | PyVal.dict kvs => "\x7b" ++ pyReprPairs kvs ++ "\x7d"

/-- Comma-separated `repr`s of the items of a list. -/
def pyReprItems : List PyVal → String
  | [] => ""
  | [x] => pyRepr x
  | x :: y :: xs => pyRepr x ++ ", " ++ pyReprItems (y :: xs)

/-- Comma-separated `key: repr(value)` entries of a dict. -/
def pyReprPairs : List (String × PyVal) → String
  | [] => ""
  | [kv] => squote ++ kv.1 ++ squote ++ ": " ++ pyRepr kv.2
  | kv :: kv2 :: kvs =>
      squote ++ kv.1 ++ squote ++ ": " ++ pyRepr kv.2 ++ ", " ++ pyReprPairs (kv2 :: kvs)

end

/-- Python `str` of a value: identical to `repr` except on strings. -/
def pyToString : PyVal → String
  | PyVal.str s => s
  | v => pyRepr v

/-- Python truthiness (`bool(v)`) for the values of `PyVal`. -/
def truthy : PyVal → Bool
  | PyVal.none => false
  | PyVal.bool b => b
  | PyVal.int n => n != 0
  | PyVal.str s => s != ""
  | PyVal.list xs => !xs.isEmpty
  | PyVal.dict kvs => !kvs.isEmpty

/-- Python `d.get(k)`: the value stored under `k`, or `None` when absent. -/
def pyGet (kvs : List (String × PyVal)) (k : String) : PyVal :=
  (List.lookup k kvs).getD PyVal.none

/-- The Python exception classes raised by the program.  The spec calls
`requestException` "TransportError", `typeError` "ShapeError" and
`keyError` "UnexpectedDataError". -/
inductive ErrKind where
  | requestException : ErrKind
  | endpointUnavailableError : ErrKind
  | typeError : ErrKind
  | keyError : ErrKind
  | attributeError : ErrKind
deriving DecidableEq, Repr

/-- A raised Python exception: its class and its message (`str(e)`). -/
structure Err where
  kind : ErrKind
  msg : String
deriving DecidableEq, Repr

/-- `True` exactly when the computation raised an exception of class `k`. -/
def failsWith {α : Type} (r : Except Err α) (k : ErrKind) : Bool :=
  match r with
  | Except.error e => e.kind == k
  | Except.ok _ => false

/-- `RETRY_TIME = 600`, the fixed sleep between poll iterations. -/
def RETRY_TIME : Nat := 600

/-- `HOMEWORK_STATUSES`: the fixed status-to-verdict table with exactly
three keys. -/
def HOMEWORK_STATUSES : List (String × String) :=
  [("approved", "Работа проверена: ревьюеру всё понравилось. Ура!"),
   ("reviewing", "Работа взята на проверку ревьюером."),
   ("rejected", "Работа проверена: у ревьюера есть замечания.")]

/-- The keys of `HOMEWORK_STATUSES`. -/
def statusKeys : List String := HOMEWORK_STATUSES.map Prod.fst

/-- Python `homework_status in HOMEWORK_STATUSES.keys()`:  membership holds
only for string values equal to one of the three keys. -/
def inStatusKeys : PyVal → Bool
  | PyVal.str s => statusKeys.contains s
  | _ => false

/-- `parse_status(homework)`: reads `homework_name` and `status` from the
record, raises `KeyError` when the name is falsy or the status is not one
of the three table keys, and otherwise returns the formatted message with
the verdict looked up in the table.  A record that is not a dict has no
`.get` attribute, which raises `AttributeError` in Python. -/
def parse_status (homework : PyVal) : Except Err String :=
  match homework with
  | PyVal.dict kvs =>
    let homework_name := pyGet kvs "homework_name"
    let homework_status := pyGet kvs "status"
    if !truthy homework_name || !inStatusKeys homework_status then
      Except.error ⟨ErrKind.keyError,
        "Неожиданные входные данные: " ++ "название: " ++ pyToString homework_name
          ++ ", статус: " ++ pyToString homework_status⟩
    else
      let verdict : String :=
        match homework_status with
        | PyVal.str s => (List.lookup s HOMEWORK_STATUSES).getD ""
        | _ => ""
      Except.ok ("Изменился статус проверки работы \"" ++ pyToString homework_name
        ++ "\". " ++ verdict)
  | v => Except.error ⟨ErrKind.attributeError,
      pyRepr v ++ " object has no attribute get"⟩

/-- `check_response(response)`: raises `TypeError` when the payload is not a
dict, or when `response.get('homeworks')` is not a list; otherwise returns
the list unmodified. -/
def check_response (response : PyVal) : Except Err (List PyVal) :=
  match response with
  | PyVal.dict kvs =>
    match pyGet kvs "homeworks" with
    | PyVal.list homeworks_list => Except.ok homeworks_list
    | _ => Except.error ⟨ErrKind.typeError, "Под ключом homeworks находится не список."⟩
  | _ => Except.error ⟨ErrKind.typeError, "Ответ апи пришел не в виде словаря."⟩

/-- The three environment variables read at startup; `Option.none` models an
unset variable (`os.getenv` returning `None`). -/
structure Credentials where
  PRACTICUM_TOKEN : Option String
  TELEGRAM_TOKEN : Option String
  TELEGRAM_CHAT_ID : Option String

/-- Python truthiness of an `os.getenv` result: `None` and the empty string
are falsy. -/
def envTruthy : Option String → Bool
  | Option.none => false
  | Option.some s => s != ""

/-- `check_tokens()`: `True` exactly when all three environment variables
are truthy. -/
def check_tokens (creds : Credentials) : Bool :=
  envTruthy creds.PRACTICUM_TOKEN
    && envTruthy creds.TELEGRAM_TOKEN
    && envTruthy creds.TELEGRAM_CHAT_ID

/-- Outcome of the single `requests.get` call: either the call itself raises
(DNS failure, timeout, connection refused, ...) with message `e`, or an HTTP
response arrives. -/
inductive HttpResult where
  | exn : String → HttpResult
  | resp : Nat → PyVal → HttpResult

/-- Observable actions of the program, recorded in order of occurrence:
`fetch t` is one `requests.get` call with query parameter `from_date = t`;
`validate` is one invocation of the validator `check_response` on a fetched
body; `deliverAttempt m` is one `bot.send_message` call with text `m`;
`log m` is a logging call; `slept n` is `time.sleep(n)`. -/
inductive Event where
  | fetch : Nat → Event
  | validate : Event
  | deliverAttempt : String → Event
  | log : String → Event
  | slept : Nat → Event
deriving DecidableEq, Repr

/-- The external world an iteration interacts with: the HTTP endpoint
(a function from the `from_date` parameter to the outcome of the request),
the Telegram client (`Except.error e` models `bot.send_message` raising with
message `e`), and the current value of `time.time()`. -/
structure Env where
  http : Nat → HttpResult
  deliver : String → Except String Unit
  now : Nat

/-- `send_message(bot, message)`: one `bot.send_message` call inside
`try/except Exception`; a raising client is caught and logged, so the
function always returns normally (`Except.ok`), and the client is called
exactly once. -/
def send_message (deliver : String → Except String Unit) (message : String) :
    Except Err Unit × List Event :=
  match deliver message with
  | Except.ok _ =>
      (Except.ok (), [Event.deliverAttempt message, Event.log "Сообщение отправлено успешно!"])
  | Except.error e =>
      (Except.ok (), [Event.deliverAttempt message,
        Event.log ("При отправке сообщения произошла ошибка " ++ e)])

/-- `current_timestamp or int(time.time())`: the `from_date` query parameter
actually sent, falling back to the current time when the cursor is zero. -/
def pollTimestamp (env : Env) (current_timestamp : Nat) : Nat :=
  if current_timestamp != 0 then current_timestamp else env.now

/-- `get_api_answer(current_timestamp)`: falls back to `time.time()` when the
cursor is zero, performs one `requests.get`, wraps a raising call into a
generic `Exception`, raises `EndpointUnavailableError` on a non-200 status,
and returns the decoded JSON body on 200.  The event list records the single
HTTP call made. -/
def get_api_answer (env : Env) (current_timestamp : Nat) :
    Except Err PyVal × List Event :=
  let timestamp : Nat := pollTimestamp env current_timestamp
  match env.http timestamp with
  | HttpResult.exn e =>
      (Except.error ⟨ErrKind.requestException, "Ошибка при попытке доступа к апи: " ++ e⟩,
       [Event.fetch timestamp])
  | HttpResult.resp status_code body =>
      if status_code != 200 then
        (Except.error ⟨ErrKind.endpointUnavailableError,
          "Эндпоинт недоступен." ++ "Статус ошибки: " ++ toString status_code⟩,
         [Event.fetch timestamp])
      else
        (Except.ok body, [Event.fetch timestamp])

/-- The `for homework in homeworks: send_message(bot, parse_status(homework))`
loop of `main`.  `parse_status` raising aborts the loop at that record
(records already processed have been delivered); `send_message` never
raises. -/
def notifyAll (deliver : String → Except String Unit) :
    List PyVal → List Event × Option Err
  | [] => ([], Option.none)
  | homework :: rest =>
    match parse_status homework with
    | Except.error e => ([], Option.some e)
    | Except.ok msg =>
      let sent := send_message deliver msg
      let (evs2, err) := notifyAll deliver rest
      (sent.2 ++ evs2, err)

/-- Result of the `try` block of one iteration of `main`'s `while True`
loop: the exception it raised (if any), the value of `current_timestamp`
after the block, and the events it performed. -/
structure TryResult where
  err : Option Err
  cursor : Nat
  events : List Event

/-- The `try` block of one iteration of `main`'s loop: fetch, validate,
notify per record (or log the debug message on an empty list), advance the
cursor to `time.time()`, sleep.  Any exception leaves the block at once with
the cursor untouched. -/
def runTry (env : Env) (current_timestamp : Nat) : TryResult :=
  let fetched := get_api_answer env current_timestamp
  match fetched.1 with
  | Except.error e => ⟨Option.some e, current_timestamp, fetched.2⟩
  | Except.ok homeworks_data =>
    let evs1 := fetched.2 ++ [Event.validate]
    match check_response homeworks_data with
    | Except.error e => ⟨Option.some e, current_timestamp, evs1⟩
    | Except.ok homeworks =>
      if homeworks.isEmpty then
        ⟨Option.none, env.now,
          evs1 ++ [Event.log "Нет новых изменений статуса домашних работ.",
            Event.slept RETRY_TIME]⟩
      else
        match notifyAll env.deliver homeworks with
        | (evsN, Option.some e) => ⟨Option.some e, current_timestamp, evs1 ++ evsN⟩
        | (evsN, Option.none) =>
            ⟨Option.none, env.now, evs1 ++ evsN ++ [Event.slept RETRY_TIME]⟩

/-- One full iteration of `main`'s `while True` loop: the `try` block, and
on an exception the `except` handler, which logs, best-effort-sends the
failure message `Сбой в работе программы: {error}` and sleeps; the handler
leaves the cursor unchanged.  Returns the next cursor plus the events. -/
def iteration (env : Env) (current_timestamp : Nat) : Nat × List Event :=
  let r := runTry env current_timestamp
  match r.err with
  | Option.none => (r.cursor, r.events)
  | Option.some e =>
    let message := "Сбой в работе программы: " ++ e.msg
    let sent := send_message env.deliver message
    (r.cursor, r.events ++ [Event.log message] ++ sent.2 ++ [Event.slept RETRY_TIME])

/-- The first `fuel` iterations of `main`'s `while True` loop (the loop
itself has no exit; `fuel` only truncates the observation). -/
def loopRun (env : Env) (cursor : Nat) : Nat → List Event
  | 0 => []
  | fuel + 1 =>
    let step := iteration env cursor
    step.2 ++ loopRun env step.1 fuel

/-- `main()`: check the environment variables and return at once when any is
missing; otherwise enter the poll loop with the cursor initialised to the
current time.  The result is the trace of the first `fuel` iterations. -/
def mainRun (creds : Credentials) (env : Env) (fuel : Nat) : List Event :=
  if !check_tokens creds then []
  else loopRun env env.now fuel

/-- Recognises a `bot.send_message` call in a trace. -/
def isDeliverAttempt : Event → Bool
  | Event.deliverAttempt _ => true
  | _ => false

/-- Recognises a `requests.get` call in a trace. -/
def isFetch : Event → Bool
  | Event.fetch _ => true
  | _ => false

/-! Helper lemmas about the building blocks of the loop. -/

/-- `get_api_answer` performs exactly one HTTP call, with the fallback
timestamp as `from_date`. -/
theorem get_api_answer_events (env : Env) (cursor : Nat) :
    (get_api_answer env cursor).2 = [Event.fetch (pollTimestamp env cursor)] := by
  unfold get_api_answer
  cases h : env.http (pollTimestamp env cursor) with
  | exn e => simp [h]
  | resp code body =>
      simp only [h]
      by_cases hc : code = 200 <;> simp [hc]

/-- A `send_message` call emits exactly one delivery attempt followed by one
log line. -/
theorem send_message_events_shape (deliver : String → Except String Unit) (m : String) :
    ∃ l : String, (send_message deliver m).2 = [Event.deliverAttempt m, Event.log l] := by
  cases hd : deliver m <;> simp [send_message, hd]

/-- When the fetch raises, the `try` block stops there: cursor untouched,
no further events. -/
theorem runTry_fetch_error (env : Env) (cursor : Nat) (e : Err)
    (h : (get_api_answer env cursor).1 = Except.error e) :
    runTry env cursor = ⟨Option.some e, cursor, (get_api_answer env cursor).2⟩ := by
  simp [runTry, h]

/-- Trace of an iteration whose `try` block raised: the `try` events, the
exception log, the best-effort notification, the sleep. -/
theorem iteration_error_events (env : Env) (cursor : Nat) (e : Err)
    (herr : (runTry env cursor).err = Option.some e) :
    (iteration env cursor).2 = (runTry env cursor).events
      ++ [Event.log ("Сбой в работе программы: " ++ e.msg)]
      ++ (send_message env.deliver ("Сбой в работе программы: " ++ e.msg)).2
      ++ [Event.slept RETRY_TIME] := by
  simp [iteration, herr]

/-- An iteration whose `try` block succeeded is just the `try` block. -/
theorem iteration_ok_events (env : Env) (cursor : Nat)
    (herr : (runTry env cursor).err = Option.none) :
    iteration env cursor = ((runTry env cursor).cursor, (runTry env cursor).events) := by
  simp [iteration, herr]

/-- The cursor an iteration hands to the next iteration is the one computed
by its `try` block (the `except` handler does not touch it). -/
theorem iteration_fst (env : Env) (cursor : Nat) :
    (iteration env cursor).1 = (runTry env cursor).cursor := by
  unfold iteration
  cases h : (runTry env cursor).err <;> simp [h]

/-- The `try` block leaves the cursor unchanged exactly when it raised, and
sets it to the current time otherwise. -/
theorem runTry_cursor_eq (env : Env) (cursor : Nat) :
    (runTry env cursor).cursor
      = if (runTry env cursor).err.isSome then cursor else env.now := by
  unfold runTry
  cases h1 : (get_api_answer env cursor).1 with
  | error e => simp [h1]
  | ok body =>
    cases h2 : check_response body with
    | error e => simp [h1, h2]
    | ok homeworks =>
      by_cases he : homeworks.isEmpty
      · simp [h1, h2, he]
      · cases h3 : notifyAll env.deliver homeworks with
        | mk evsN errN =>
          cases errN <;> simp [h1, h2, he, h3]

/-! The claims. -/

/-- Claim C1: for every homework record mapping whose `homework_name` value is
a non-empty string and whose `status` value is one of the three recognized
keys, `parse_status` returns the formatted string
`Изменился статус проверки работы "{name}". {verdict}` (the source's
original of the spec's `Changed review status for "{name}". {verdict}`)
where the verdict is the `HOMEWORK_STATUSES` lookup; for every record whose
name is absent or empty, or whose status is not one of the three keys, it
fails with the `KeyError` the spec calls `UnexpectedDataError`. -/
theorem parse_status_contract (hw : List (String × PyVal)) :
    (∀ name s : String,
        pyGet hw "homework_name" = PyVal.str name → name ≠ "" →
        pyGet hw "status" = PyVal.str s → s ∈ statusKeys →
        parse_status (PyVal.dict hw) =
          Except.ok ("Изменился статус проверки работы \"" ++ name ++ "\". "
            ++ (List.lookup s HOMEWORK_STATUSES).getD ""))
    ∧ ((pyGet hw "homework_name" = PyVal.none ∨ pyGet hw "homework_name" = PyVal.str ""
          ∨ inStatusKeys (pyGet hw "status") = false) →
        failsWith (parse_status (PyVal.dict hw)) ErrKind.keyError = true) := by
  constructor
  · intro name s hname hne hstat hmem
    have hcont : statusKeys.contains s = true := List.elem_eq_true_of_mem hmem
    simp [parse_status, hname, hstat, truthy, inStatusKeys, hcont, pyToString, hne]
    exact hmem
  · intro h
    rcases h with h | h | h
    · simp [parse_status, h, truthy, failsWith]
    · simp [parse_status, h, truthy, failsWith]
    · cases hname : pyGet hw "homework_name" <;>
        simp [parse_status, h, hname, truthy, failsWith]

/-- Witness for C1 at a concrete valid record and a concrete record with an
unrecognized status. -/
theorem parse_status_contract_witness :
    parse_status (PyVal.dict [("homework_name", PyVal.str "hw1"), ("status", PyVal.str "approved")])
      = Except.ok ("Изменился статус проверки работы \"" ++ "hw1" ++ "\". "
          ++ (List.lookup "approved" HOMEWORK_STATUSES).getD "")
    ∧ failsWith (parse_status (PyVal.dict [("homework_name", PyVal.str "hw1"),
        ("status", PyVal.str "unknown")])) ErrKind.keyError = true := by
  constructor
  · exact (parse_status_contract _).1 "hw1" "approved" rfl (by decide) rfl (by decide)
  · exact (parse_status_contract _).2 (Or.inr (Or.inr (by decide)))

/-- Claim C2: a response with a status other than 200 makes `get_api_answer`
raise `EndpointUnavailableError` whose text carries the numeric status code,
and the body never reaches the validator (no `validate` event occurs in the
whole iteration); on status 200 the decoded JSON body is returned. -/
theorem get_api_answer_status_contract (env : Env) (cursor code : Nat) (body : PyVal)
    (hhttp : env.http (pollTimestamp env cursor) = HttpResult.resp code body) :
    (code ≠ 200 →
      (get_api_answer env cursor).1 =
        Except.error ⟨ErrKind.endpointUnavailableError,
          "Эндпоинт недоступен." ++ "Статус ошибки: " ++ toString code⟩
      ∧ Event.validate ∉ (iteration env cursor).2)
    ∧ (code = 200 → (get_api_answer env cursor).1 = Except.ok body) := by
  constructor
  · intro hcode
    have h1 : (get_api_answer env cursor).1 =
        Except.error ⟨ErrKind.endpointUnavailableError,
          "Эндпоинт недоступен." ++ "Статус ошибки: " ++ toString code⟩ := by
      unfold get_api_answer
      simp only [hhttp]
      simp [hcode]
    refine ⟨h1, ?_⟩
    have hrt := runTry_fetch_error env cursor _ h1
    have hit := iteration_error_events env cursor _ (by rw [hrt])
    rw [hit, hrt]
    obtain ⟨l, hl⟩ := send_message_events_shape env.deliver _
    rw [hl]
    simp [get_api_answer_events]
  · intro hcode
    unfold get_api_answer
    simp only [hhttp]
    simp [hcode]

/-- Witness for C2 at a concrete 404 response. -/
theorem get_api_answer_status_contract_witness :
    (get_api_answer ⟨fun _ => HttpResult.resp 404 (PyVal.dict []),
        fun _ => Except.ok (), 5⟩ 10).1 =
      Except.error ⟨ErrKind.endpointUnavailableError,
        "Эндпоинт недоступен." ++ "Статус ошибки: " ++ toString (404 : Nat)⟩
    ∧ Event.validate ∉ (iteration ⟨fun _ => HttpResult.resp 404 (PyVal.dict []),
        fun _ => Except.ok (), 5⟩ 10).2 :=
  (get_api_answer_status_contract _ 10 404 (PyVal.dict []) rfl).1 (by decide)

/-- Claim C3: `check_response` fails with the `TypeError` the spec calls
`ShapeError` when the payload is not a dict, or when the value under
`homeworks` is not a list, regardless of other fields; otherwise it returns
that list (possibly empty) unmodified. -/
theorem check_response_contract (response : PyVal) :
    (∀ kvs, response = PyVal.dict kvs →
        ∀ hws, pyGet kvs "homeworks" = PyVal.list hws →
          check_response response = Except.ok hws)
    ∧ ((∀ kvs, response ≠ PyVal.dict kvs) →
        failsWith (check_response response) ErrKind.typeError = true)
    ∧ (∀ kvs, response = PyVal.dict kvs →
        (∀ xs, pyGet kvs "homeworks" ≠ PyVal.list xs) →
        failsWith (check_response response) ErrKind.typeError = true) := by
  refine ⟨?_, ?_, ?_⟩
  · rintro kvs rfl hws hget
    simp [check_response, hget]
  · intro h
    cases response with
    | none => simp [check_response, failsWith]
    | bool b => simp [check_response, failsWith]
    | int n => simp [check_response, failsWith]
    | str s => simp [check_response, failsWith]
    | list xs => simp [check_response, failsWith]
    | dict kvs => exact absurd rfl (h kvs)
  · rintro kvs rfl hnl
    cases hget : pyGet kvs "homeworks" <;>
      first
        | exact absurd hget (hnl _)
        | simp [check_response, hget, failsWith]

/-- Witness for C3: a well-shaped payload, a non-dict payload and a payload
whose `homeworks` value is a string. -/
theorem check_response_contract_witness :
    check_response (PyVal.dict [("homeworks", PyVal.list [PyVal.int 1])])
      = Except.ok [PyVal.int 1]
    ∧ failsWith (check_response (PyVal.str "x")) ErrKind.typeError = true
    ∧ failsWith (check_response (PyVal.dict [("homeworks", PyVal.str "not-a-list")]))
        ErrKind.typeError = true := by
  refine ⟨?_, ?_, ?_⟩
  · exact (check_response_contract _).1 _ rfl _ rfl
  · exact (check_response_contract _).2.1 (fun kvs h => PyVal.noConfusion h)
  · exact (check_response_contract _).2.2 _ rfl (fun xs h => by simp [pyGet] at h)

/-- Claim C4: `send_message` never lets a delivery failure escape (it always
returns normally), calls the client exactly once (no retry), and logs the
failure when the client raises. -/
theorem send_message_swallows (deliver : String → Except String Unit) (message : String) :
    (send_message deliver message).1 = Except.ok ()
    ∧ (send_message deliver message).2.countP isDeliverAttempt = 1
    ∧ (∀ e, deliver message = Except.error e →
        Event.log ("При отправке сообщения произошла ошибка " ++ e)
          ∈ (send_message deliver message).2) := by
  refine ⟨?_, ?_, ?_⟩ <;>
    cases hd : deliver message <;>
      simp [send_message, hd, isDeliverAttempt, List.countP, List.countP.go]

/-- Witness for C4 at a client that raises. -/
theorem send_message_swallows_witness :
    (send_message (fun _ => Except.error "boom") "msg").1 = Except.ok ()
    ∧ (send_message (fun _ => Except.error "boom") "msg").2.countP isDeliverAttempt = 1
    ∧ Event.log ("При отправке сообщения произошла ошибка " ++ "boom")
        ∈ (send_message (fun _ => Except.error "boom") "msg").2 :=
  ⟨(send_message_swallows _ _).1, (send_message_swallows _ _).2.1,
    (send_message_swallows _ _).2.2 "boom" rfl⟩

/-- Claim C5: when the `try` block of an iteration raises, the loop attempts
to deliver the generic failure message carrying the error text, the
iteration still ends with the fixed 600-second sleep, and the loop goes on
to the next iteration (it never terminates on error). -/
theorem loop_failure_recovery (env : Env) (cursor : Nat) (e : Err)
    (hfail : (runTry env cursor).err = Option.some e) :
    Event.deliverAttempt ("Сбой в работе программы: " ++ e.msg) ∈ (iteration env cursor).2
    ∧ (∃ l, (iteration env cursor).2 = l ++ [Event.slept RETRY_TIME])
    ∧ (∀ fuel, loopRun env cursor (fuel + 1)
        = (iteration env cursor).2 ++ loopRun env (iteration env cursor).1 fuel) := by
  have hit := iteration_error_events env cursor e hfail
  obtain ⟨l, hl⟩ := send_message_events_shape env.deliver ("Сбой в работе программы: " ++ e.msg)
  refine ⟨?_, ?_, ?_⟩
  · rw [hit, hl]; simp
  · refine ⟨(runTry env cursor).events
      ++ [Event.log ("Сбой в работе программы: " ++ e.msg)]
      ++ (send_message env.deliver ("Сбой в работе программы: " ++ e.msg)).2, ?_⟩
    rw [hit]
  · intro fuel; simp [loopRun]

/-- Witness for C5 at an endpoint whose request raises. -/
theorem loop_failure_recovery_witness :
    Event.deliverAttempt "Сбой в работе программы: Ошибка при попытке доступа к апи: boom"
      ∈ (iteration ⟨fun _ => HttpResult.exn "boom", fun _ => Except.ok (), 7⟩ 3).2
    ∧ (∃ l, (iteration ⟨fun _ => HttpResult.exn "boom", fun _ => Except.ok (), 7⟩ 3).2
        = l ++ [Event.slept RETRY_TIME])
    ∧ (∀ fuel, loopRun ⟨fun _ => HttpResult.exn "boom", fun _ => Except.ok (), 7⟩ 3 (fuel + 1)
        = (iteration ⟨fun _ => HttpResult.exn "boom", fun _ => Except.ok (), 7⟩ 3).2
          ++ loopRun ⟨fun _ => HttpResult.exn "boom", fun _ => Except.ok (), 7⟩
              (iteration ⟨fun _ => HttpResult.exn "boom", fun _ => Except.ok (), 7⟩ 3).1 fuel) :=
  loop_failure_recovery _ 3
    ⟨ErrKind.requestException, "Ошибка при попытке доступа к апи: boom"⟩ rfl

/-- Claim C6: a successful iteration advances the cursor to the time of that
poll, and an iteration that entered the failure handler (its `try` block
raised) leaves the cursor unchanged, so the next poll re-uses it. -/
theorem cursor_advance_frame (env : Env) (cursor : Nat) :
    (iteration env cursor).1
      = if (runTry env cursor).err.isSome then cursor else env.now := by
  rw [iteration_fst, runTry_cursor_eq]

/-- Claim C7: an iteration whose validated homeworks list is empty makes no
notification call, is not treated as an error, still advances the cursor to
the current time and still sleeps. -/
theorem empty_homeworks_silent (env : Env) (cursor : Nat) (body : PyVal)
    (hfetch : (get_api_answer env cursor).1 = Except.ok body)
    (hval : check_response body = Except.ok []) :
    (∀ m, Event.deliverAttempt m ∉ (iteration env cursor).2)
    ∧ (runTry env cursor).err = Option.none
    ∧ (iteration env cursor).1 = env.now
    ∧ Event.slept RETRY_TIME ∈ (iteration env cursor).2 := by
  have hrt : runTry env cursor = ⟨Option.none, env.now,
      (get_api_answer env cursor).2
        ++ [Event.validate, Event.log "Нет новых изменений статуса домашних работ.",
            Event.slept RETRY_TIME]⟩ := by
    simp [runTry, hfetch, hval]
  have hit := iteration_ok_events env cursor (by rw [hrt])
  refine ⟨?_, by rw [hrt], ?_, ?_⟩
  · intro m
    rw [show (iteration env cursor).2 = (runTry env cursor).events from by rw [hit], hrt,
      get_api_answer_events]
    simp
  · rw [iteration_fst, hrt]
  · rw [show (iteration env cursor).2 = (runTry env cursor).events from by rw [hit], hrt]
    simp

/-- Witness for C7 at a 200 response carrying an empty homeworks list. -/
theorem empty_homeworks_silent_witness :
    (∀ m, Event.deliverAttempt m ∉ (iteration ⟨fun _ =>
        HttpResult.resp 200 (PyVal.dict [("homeworks", PyVal.list [])]),
        fun _ => Except.ok (), 99⟩ 5).2)
    ∧ (runTry ⟨fun _ => HttpResult.resp 200 (PyVal.dict [("homeworks", PyVal.list [])]),
        fun _ => Except.ok (), 99⟩ 5).err = Option.none
    ∧ (iteration ⟨fun _ => HttpResult.resp 200 (PyVal.dict [("homeworks", PyVal.list [])]),
        fun _ => Except.ok (), 99⟩ 5).1 = 99
    ∧ Event.slept RETRY_TIME ∈ (iteration ⟨fun _ =>
        HttpResult.resp 200 (PyVal.dict [("homeworks", PyVal.list [])]),
        fun _ => Except.ok (), 99⟩ 5).2 :=
  empty_homeworks_silent _ 5 (PyVal.dict [("homeworks", PyVal.list [])]) rfl rfl

/-- Claim C8: a network-level failure of the HTTP call makes
`get_api_answer` raise the generic `Exception` the spec calls
`TransportError`; it propagates to the loop's failure handler (the handler's
best-effort notification occurs) and the call is not retried internally
(the iteration performs exactly one HTTP call). -/
theorem transport_error_contract (env : Env) (cursor : Nat) (e : String)
    (hhttp : env.http (pollTimestamp env cursor) = HttpResult.exn e) :
    (get_api_answer env cursor).1 =
      Except.error ⟨ErrKind.requestException, "Ошибка при попытке доступа к апи: " ++ e⟩
    ∧ (iteration env cursor).2.countP isFetch = 1
    ∧ Event.deliverAttempt
        ("Сбой в работе программы: " ++ ("Ошибка при попытке доступа к апи: " ++ e))
        ∈ (iteration env cursor).2 := by
  have h1 : (get_api_answer env cursor).1 =
      Except.error ⟨ErrKind.requestException, "Ошибка при попытке доступа к апи: " ++ e⟩ := by
    unfold get_api_answer
    simp only [hhttp]
  have hrt := runTry_fetch_error env cursor _ h1
  have hit := iteration_error_events env cursor _ (by rw [hrt])
  obtain ⟨l, hl⟩ := send_message_events_shape env.deliver
    ("Сбой в работе программы: " ++ ("Ошибка при попытке доступа к апи: " ++ e))
  refine ⟨h1, ?_, ?_⟩
  · rw [hit, hrt, get_api_answer_events, hl]
    simp [List.countP_append, List.countP_cons, isFetch, List.countP_nil]
  · rw [hit, hrt, hl]
    simp

/-- Witness for C8 at a raising HTTP call, with the zero cursor exercising
the time fallback. -/
theorem transport_error_contract_witness :
    (get_api_answer ⟨fun _ => HttpResult.exn "dns", fun _ => Except.error "tg", 7⟩ 0).1 =
      Except.error ⟨ErrKind.requestException, "Ошибка при попытке доступа к апи: dns"⟩
    ∧ (iteration ⟨fun _ => HttpResult.exn "dns", fun _ => Except.error "tg", 7⟩ 0).2.countP
        isFetch = 1
    ∧ Event.deliverAttempt "Сбой в работе программы: Ошибка при попытке доступа к апи: dns"
        ∈ (iteration ⟨fun _ => HttpResult.exn "dns", fun _ => Except.error "tg", 7⟩ 0).2 :=
  transport_error_contract _ 0 "dns" rfl

/-- Claim C9: with any of the three environment variables unset the
credential check fails and `main` returns before the loop: no event at all
is produced, in particular no HTTP call; with all three present (non-empty)
the loop starts with the cursor initialised to the current time. -/
theorem startup_credential_check (creds : Credentials) (env : Env) (fuel : Nat) :
    ((creds.PRACTICUM_TOKEN = Option.none ∨ creds.TELEGRAM_TOKEN = Option.none
        ∨ creds.TELEGRAM_CHAT_ID = Option.none) →
      check_tokens creds = false ∧ mainRun creds env fuel = []
        ∧ ∀ t, Event.fetch t ∉ mainRun creds env fuel)
    ∧ (∀ a b c, creds = ⟨Option.some a, Option.some b, Option.some c⟩ →
        a ≠ "" → b ≠ "" → c ≠ "" →
        check_tokens creds = true ∧ mainRun creds env fuel = loopRun env env.now fuel) := by
  constructor
  · intro h
    have hct : check_tokens creds = false := by
      rcases h with h | h | h <;> simp [check_tokens, envTruthy, h]
    refine ⟨hct, ?_, ?_⟩
    · simp [mainRun, hct]
    · simp [mainRun, hct]
  · rintro a b c rfl ha hb hc
    have hct : check_tokens
        (⟨Option.some a, Option.some b, Option.some c⟩ : Credentials) = true := by
      simp [check_tokens, envTruthy, ha, hb, hc]
    exact ⟨hct, by simp [mainRun, hct]⟩

/-- Witness for C9: a missing first token aborts startup; three non-empty
tokens start the loop. -/
theorem startup_credential_check_witness :
    (check_tokens ⟨Option.none, Option.some "t", Option.some "c"⟩ = false
      ∧ mainRun ⟨Option.none, Option.some "t", Option.some "c"⟩
          ⟨fun _ => HttpResult.exn "x", fun _ => Except.ok (), 0⟩ 2 = []
      ∧ ∀ t, Event.fetch t ∉ mainRun ⟨Option.none, Option.some "t", Option.some "c"⟩
          ⟨fun _ => HttpResult.exn "x", fun _ => Except.ok (), 0⟩ 2)
    ∧ (check_tokens ⟨Option.some "a", Option.some "t", Option.some "c"⟩ = true
      ∧ mainRun ⟨Option.some "a", Option.some "t", Option.some "c"⟩
          ⟨fun _ => HttpResult.exn "x", fun _ => Except.ok (), 0⟩ 2
        = loopRun ⟨fun _ => HttpResult.exn "x", fun _ => Except.ok (), 0⟩
            (⟨fun _ => HttpResult.exn "x", fun _ => Except.ok (), 0⟩ : Env).now 2) :=
  ⟨(startup_credential_check _ _ 2).1 (Or.inl rfl),
   (startup_credential_check _ _ 2).2 "a" "t" "c" rfl (by decide) (by decide) (by decide)⟩

/-- Claim C10: a payload that is a dict without any `homeworks` key is
rejected by `check_response` with exactly the same `TypeError` as a
non-list value, because the absent key is retrieved as `None`. -/
theorem check_response_missing_key (kvs : List (String × PyVal))
    (habs : List.lookup "homeworks" kvs = Option.none) :
    check_response (PyVal.dict kvs) =
      Except.error ⟨ErrKind.typeError, "Под ключом homeworks находится не список."⟩ := by
  simp [check_response, pyGet, habs]

/-- Witness for C10 at a dict with no `homeworks` key. -/
theorem check_response_missing_key_witness :
    check_response (PyVal.dict [("x", PyVal.int 1)])
      = Except.error ⟨ErrKind.typeError, "Под ключом homeworks находится не список."⟩ :=
  check_response_missing_key _ rfl

end HomeworkBot
